import Mathlib

/-!
Shallow embedding of the streaming chat session manager of the
`olympian-ai-dynamic` backend, together with proofs about the behaviour its
specification describes.

The embedding follows the Python source:
* `backend/app/core/websocket.py` — the `WebSocketManager` class
  (connection registry, session metadata, active stream task map, chat /
  stop handlers, broadcast);
* `backend/app/services/ollama_service.py` — `OllamaService.stream_chat`;
* `backend/app/api/chat.py` — the HTTP endpoints for stop / status /
  conversations (list, fork, regenerate).

Python dictionaries are modelled as insertion-ordered association lists with
unique keys (`dictSet` replaces in place, `dictErase` removes).  Wall-clock
timestamps (`datetime.now()`) are modelled as abstract `Nat` values where the
code stores them and omitted where no claim depends on them.  `asyncio`
tasks are modelled by explicit task records plus an explicit outcome value
(`StreamOutcome`) fed to the handler, which mirrors the three terminal ways
the awaited stream task can end.
-/

/-- Python dict with `String` keys: insertion-ordered association list. -/
abbrev PyDict (α : Type) := List (String × α)

/-- Lookup `d[k]` returning an `Option` (Python `d.get(k)`). -/
def dictGet {α : Type} (d : PyDict α) (k : String) : Option α :=
  match d with
  | [] => none
  | (k', v) :: t => if k' = k then some v else dictGet t k

/-- Assignment `d[k] = v`: replace the value in place if the key exists (Python dicts
keep the original insertion position), otherwise append at the end. -/
def dictSet {α : Type} (d : PyDict α) (k : String) (v : α) : PyDict α :=
  match d with
  | [] => [(k, v)]
  | (k', v') :: t => if k' = k then (k, v) :: t else (k', v') :: dictSet t k v

/-- Deletion `del d[k]` (no-op when the key is absent; the source only deletes keys
it has just checked for membership). -/
def dictErase {α : Type} (d : PyDict α) (k : String) : PyDict α :=
  d.filter (fun p => p.1 ≠ k)

/-- Membership `k in d`. -/
def dictContains {α : Type} (d : PyDict α) (k : String) : Bool :=
  (dictGet d k).isSome

/-- Python truthiness of an optional string: `None` and `""` are falsy. -/
def truthy : Option String → Bool
  | none => false
  | some s => s ≠ ""

/-- Python `a or b` on optional strings (used for `message.get("model") or
metadata.get("active_model")`). -/
def pyOr (a b : Option String) : Option String :=
  if truthy a then a else b

/-- One transport handle (`fastapi.WebSocket`).  `faulty` models a transport
whose `send_json` raises; `wsId` is the object identity used by
`disconnect`'s reverse lookup. -/
structure WS where
  wsId : Nat
  faulty : Bool
deriving Repr, DecidableEq

/-- Per-connection metadata dict created by `connect`
(`connected_at` / `last_activity` timestamps are not modelled; no claim
mentions them). -/
structure ConnMeta where
  projectId : Option String
  activeModel : Option String
  isStreaming : Bool
deriving Repr, DecidableEq

/-- An `asyncio.Task` handle stored in `active_streams`.  `cancelled`
records that `.cancel()` was requested on the handle. -/
structure PyTask where
  taskId : Nat
  cancelled : Bool
deriving Repr, DecidableEq

/-- The mutable state of the `WebSocketManager` instance.  `nextTaskId` is
the embedding's source of fresh task identities for `asyncio.create_task`. -/
structure MgrState where
  active_connections : PyDict WS
  connection_metadata : PyDict ConnMeta
  active_streams : PyDict PyTask
  nextTaskId : Nat
deriving Repr, DecidableEq

/-- Client-visible events, keeping the discriminating fields of the JSON
payloads the manager sends (`timestamp` fields are omitted). -/
inductive Event where
  /-- Payload `{"type": "welcome", "client_id": ...}` -/
  | welcomeEv (clientId : String)
  /-- Payload `{"type": "error", "message": ...}` -/
  | errorEv (message : String)
  /-- Payload `{"type": "chat_status", "status": "typing"}` -/
  | chatStatusTyping
  /-- Payload `{"type": "chat_response", "content": ..., "model": ..., "streaming": true, "can_stop": true}` -/
  | chatChunk (content : String) (model : String)
  /-- Payload `{"type": "chat_response", "streaming": false, "complete": true, "total_chunks": n}` -/
  | chatComplete (totalChunks : Nat)
  /-- Payload `{"type": "chat_response", "streaming": false, "cancelled": true}` -/
  | chatCancelled
  /-- Payload `{"type": "generation_stopped", "message": ...}` -/
  | generationStopped (message : String)
deriving Repr, DecidableEq

/-- Method `WebSocketManager.disconnect(websocket)`: reverse-lookup the client id
owning this transport handle; if found, cancel and drop any active stream
task and remove the connection and its metadata. -/
def disconnect (st : MgrState) (wsId : Nat) : MgrState :=
  match st.active_connections.find? (fun p => p.2.wsId = wsId) with
  | none => st
  | some (cid, _) =>
    { st with
      active_connections := dictErase st.active_connections cid
      connection_metadata := dictErase st.connection_metadata cid
      active_streams := dictErase st.active_streams cid }

/-- Method `WebSocketManager.send_message(client_id, message)`: deliver to the one
connection if registered; a raising transport is treated as a disconnect
(the error is swallowed). Returns the new state and the delivered events. -/
def send_message (st : MgrState) (cid : String) (ev : Event) :
    MgrState × List (String × Event) :=
  match dictGet st.active_connections cid with
  | none => (st, [])
  | some ws => if ws.faulty then (disconnect st ws.wsId, []) else (st, [(cid, ev)])

/-- Method `WebSocketManager.send_error(client_id, error_message)`. -/
def send_error (st : MgrState) (cid : String) (msg : String) :
    MgrState × List (String × Event) :=
  send_message st cid (Event.errorEv msg)

/-- Result of one run of `broadcast`: final state, events delivered in
order, and whether the iteration raised (`RuntimeError: dictionary changed
size during iteration`). -/
structure BroadcastResult where
  state : MgrState
  delivered : List (String × Event)
  raised : Bool
deriving Repr, DecidableEq

/-- Loop body of `broadcast`: a CPython dict iterator raises `RuntimeError`
on the `next()` call that follows any size change, including the final
exhaustion check, so after a failed send (whose `disconnect` shrinks
`active_connections`) the very next step raises. `dirty` records that the
dict changed size under the iterator. -/
def broadcastGo (ev : Event) (exclude : List String) :
    List (String × WS) → MgrState → List (String × Event) → Bool → BroadcastResult
  | [], st, sent, dirty => ⟨st, sent, dirty⟩
  | (cid, ws) :: rest, st, sent, dirty =>
    if dirty then ⟨st, sent, true⟩
    else if cid ∈ exclude then broadcastGo ev exclude rest st sent false
    else if ws.faulty then broadcastGo ev exclude rest (disconnect st ws.wsId) sent true
    else broadcastGo ev exclude rest st (sent ++ [(cid, ev)]) false

/-- Method `WebSocketManager.broadcast(message, exclude)`: iterate over
`active_connections.items()`, skipping excluded ids; a send failure runs
`self.disconnect(websocket)` — mutating the dict being iterated. -/
def broadcast (st : MgrState) (ev : Event) (exclude : List String) : BroadcastResult :=
  broadcastGo ev exclude st.active_connections st [] false

/-- Method `WebSocketManager.connect(websocket, client_id)`: generate a fresh id
only when the suggested one is falsy (`if not client_id`), register the
transport and fresh metadata with `is_streaming = False`, send the welcome
payload directly on the transport (failures only logged), return the id. -/
def connect (st : MgrState) (ws : WS) (client_id : Option String) (fresh_id : String) :
    MgrState × String × List (String × Event) :=
  let cid := if truthy client_id then client_id.getD "" else fresh_id
  let st1 : MgrState :=
    { st with
      active_connections := dictSet st.active_connections cid ws
      connection_metadata :=
        dictSet st.connection_metadata cid
          { projectId := none, activeModel := none, isStreaming := false } }
  let evs := if ws.faulty then [] else [(cid, Event.welcomeEv cid)]
  (st1, cid, evs)

/-- Return value of `get_client_stream_status`. -/
structure StreamStatus where
  is_streaming : Bool
  has_active_stream : Bool
deriving Repr, DecidableEq

/-- Method `WebSocketManager.get_client_stream_status(client_id)`:
`connection_metadata.get(client_id, {}).get("is_streaming", False)` and
`client_id in self.active_streams`. -/
def get_client_stream_status (st : MgrState) (cid : String) : StreamStatus :=
  { is_streaming := ((dictGet st.connection_metadata cid).map ConnMeta.isStreaming).getD false
    has_active_stream := dictContains st.active_streams cid }

/-- Method `WebSocketManager._handle_stop_generation(client_id, message)`: if a
stream task is recorded, request its cancellation and acknowledge; else
acknowledge that nothing was active.  Total — no raising path. -/
def handle_stop_generation (st : MgrState) (cid : String) :
    MgrState × List (String × Event) :=
  match dictGet st.active_streams cid with
  | some t =>
    let st1 := { st with active_streams := dictSet st.active_streams cid { t with cancelled := true } }
    send_message st1 cid (Event.generationStopped "Generation stopped by user")
  | none =>
    send_message st cid (Event.generationStopped "No active generation to stop")

/-- Fields of an inbound `{"type": "chat", ...}` message
(`message.get("content")` etc.; a missing key is `none`). -/
structure ChatMsg where
  content : Option String
  model : Option String
  projectId : Option String
  systemPrompt : Option String
deriving Repr, DecidableEq

/-- The busy rejection text of `_handle_chat_message`. -/
def busyMsg : String :=
  "Already processing a message. Please wait or stop the current generation."

/-- How the awaited generation task terminates, as observed by
`_handle_chat_message`: the async generator loop in
`_stream_chat_response` either finishes its chunks and completes, raises a
non-cancellation exception after some chunks (caught there), or is
cancelled after some chunks (`CancelledError` re-raised to the awaiter). -/
inductive StreamOutcome where
  | completed (chunks : List String)
  | raisedExc (chunks : List String) (msg : String)
  | cancelledAt (chunks : List String)
deriving Repr, DecidableEq

/-- How the `await stream_task` in `_handle_chat_message` resolves. -/
inductive TaskRes where
  | normal
  | cancelledRes
deriving Repr, DecidableEq

/-- The per-chunk loop of `_stream_chat_response`: each received chunk is
sent as a streaming `chat_response` event. -/
def sendChunks (st : MgrState) (cid model : String) :
    List String → MgrState × List (String × Event)
  | [] => (st, [])
  | c :: t =>
    let (st1, e1) := send_message st cid (Event.chatChunk c model)
    let (st2, e2) := sendChunks st1 cid model t
    (st2, e1 ++ e2)

/-- Method `WebSocketManager._stream_chat_response`: typing indicator, then the
chunk loop; on normal exhaustion a terminal `complete` event with the
accumulated chunk count; a non-cancellation exception is caught and turned
into an `error` event (the coroutine then returns normally);
`CancelledError` is re-raised to the awaiting handler. -/
def stream_chat_response (st : MgrState) (cid model : String) (o : StreamOutcome) :
    MgrState × List (String × Event) × TaskRes :=
  let (st1, e1) := send_message st cid Event.chatStatusTyping
  match o with
  | .completed chunks =>
    let (st2, e2) := sendChunks st1 cid model chunks
    let (st3, e3) := send_message st2 cid (Event.chatComplete chunks.length)
    (st3, e1 ++ e2 ++ e3, .normal)
  | .raisedExc chunks m =>
    let (st2, e2) := sendChunks st1 cid model chunks
    let (st3, e3) := send_error st2 cid ("Chat error: " ++ m)
    (st3, e1 ++ e2 ++ e3, .normal)
  | .cancelledAt chunks =>
    let (st2, e2) := sendChunks st1 cid model chunks
    (st2, e1 ++ e2, .cancelledRes)

/-- Set `connection_metadata[cid]["is_streaming"] = b`.  In Python a missing
key would raise `KeyError`; every modelled run keeps the key present, so the
absent case is left as the identity. -/
def metaSetStreaming (st : MgrState) (cid : String) (b : Bool) : MgrState :=
  match dictGet st.connection_metadata cid with
  | none => st
  | some m =>
    { st with connection_metadata := dictSet st.connection_metadata cid { m with isStreaming := b } }

/-- Method `WebSocketManager._handle_chat_message(client_id, message)`, covering
the whole lifecycle of the spawned stream task as the handler observes it:
busy / no-model / no-service guards; on acceptance record the task handle,
set `is_streaming`, run the stream to its outcome `o`, send the terminal
`cancelled` event when the await raised `CancelledError`, and in the
`finally` block drop the task handle and reset `is_streaming = False`.
`ollamaOk` is `get_ollama_service() is not None`.  For an unregistered
`cid` Python raises `KeyError`, which `handle_message` catches and answers
with `send_error` to the same unregistered id — a no-op; the observable
result `(st, [])` is returned directly here. -/
def handle_chat_message (st : MgrState) (cid : String) (msg : ChatMsg)
    (ollamaOk : Bool) (o : StreamOutcome) : MgrState × List (String × Event) :=
  match dictGet st.connection_metadata cid with
  | none => (st, [])
  | some meta =>
    if meta.isStreaming then
      send_error st cid busyMsg
    else
      let model := pyOr msg.model meta.activeModel
      if ¬ truthy model then
        send_error st cid "No model selected"
      else if ¬ ollamaOk then
        send_error st cid "Ollama service not available"
      else
        let task : PyTask := { taskId := st.nextTaskId, cancelled := false }
        let st1 : MgrState :=
          { st with
            active_streams := dictSet st.active_streams cid task
            nextTaskId := st.nextTaskId + 1 }
        let st2 := metaSetStreaming st1 cid true
        let (st3, evs, res) := stream_chat_response st2 cid (model.getD "") o
        let (st4, evs2) :=
          match res with
          | .cancelledRes => send_message st3 cid Event.chatCancelled
          | .normal => (st3, [])
        let st5 : MgrState := { st4 with active_streams := dictErase st4.active_streams cid }
        (metaSetStreaming st5 cid false, evs ++ evs2)

/-- One line of the upstream HTTP streaming response body, pre-decoded:
`blank` is an empty line, `malformed` fails `json.loads`, and `parsed`
carries `data["message"]["content"]` when a `"message"` key is present and
the `data.get("done", False)` flag. -/
inductive RawLine where
  | blank
  | malformed
  | parsed (msgContent : Option String) (done : Bool)
deriving Repr, DecidableEq

/-- The line loop of `OllamaService.stream_chat`: skip blank lines, skip
lines that fail JSON decoding (`continue`), yield a non-empty
`message.content`, and `break` after a line with `done` set. -/
def processLines : List RawLine → List String
  | [] => []
  | .blank :: t => processLines t
  | .malformed :: t => processLines t
  | .parsed mc d :: t =>
    let here := match mc with
      | some c => if c ≠ "" then [c] else []
      | none => []
    here ++ (if d then [] else processLines t)

/-- What the upstream call can do, from the adapter's point of view:
no endpoint configured, no client for the endpoint, an HTTP response with a
status and body lines, a timeout, an exception before any line, or an
exception after some lines were already consumed. -/
inductive Upstream where
  | noEndpoint
  | noClient
  | httpResp (status : Nat) (lines : List RawLine)
  | timeoutExc
  | raisedBefore (msg : String)
  | raisedMid (lines : List RawLine) (msg : String)
deriving Repr, DecidableEq

/-- Method `OllamaService.stream_chat`: every failure mode is caught inside the
generator and yielded as an in-band `"Error: ..."` text fragment; the
generator itself never raises to its consumer. -/
def ollama_stream_chat : Upstream → List String
  | .noEndpoint => ["Error: No Ollama endpoint available"]
  | .noClient => ["Error: Ollama client not initialized"]
  | .httpResp status lines =>
    if status ≠ 200 then ["Error: Ollama returned status " ++ toString status]
    else processLines lines
  | .timeoutExc => ["Error: Request timed out"]
  | .raisedBefore m => ["Error: " ++ m]
  | .raisedMid lines m => processLines lines ++ ["Error: " ++ m]

/-- The stream outcome `_handle_chat_message` observes when the generator
it consumes is the real `ollama_stream_chat`: the generator always finishes
normally, whatever the upstream did. -/
def ollamaOutcome (u : Upstream) : StreamOutcome :=
  .completed (ollama_stream_chat u)

/-- An HTTP error response (`HTTPException(status_code, detail)`). -/
structure HttpErr where
  status_code : Nat
  detail : String
deriving Repr, DecidableEq

/-- Body returned by `POST /chat/stop`. -/
structure StopResp where
  status : String
  client_id : String
deriving Repr, DecidableEq

/-- Endpoint `POST /chat/stop` (`stop_generation` in `api/chat.py`): consult
`get_client_stream_status`; with no active stream raise a 400; otherwise
run the manager's stop handler and answer `{"status": "stopped"}`. -/
def http_stop_generation (st : MgrState) (client_id : String) :
    Except HttpErr (MgrState × List (String × Event) × StopResp) :=
  let client_status := get_client_stream_status st client_id
  if ¬ client_status.has_active_stream then
    .error ⟨400, "No active generation to stop"⟩
  else
    let (st1, evs) := handle_stop_generation st client_id
    .ok (st1, evs, ⟨"stopped", client_id⟩)

/-- Body returned by `GET /chat/status/{client_id}`. -/
structure ChatStatusResp where
  client_id : String
  is_streaming : Bool
  has_active_stream : Bool
  can_stop : Bool
deriving Repr, DecidableEq

/-- Endpoint `GET /chat/status/{client_id}` (`get_chat_status`): total — it answers
for arbitrary client ids without any raising path. -/
def http_get_chat_status (st : MgrState) (client_id : String) : ChatStatusResp :=
  let status := get_client_stream_status st client_id
  { client_id := client_id
    is_streaming := status.is_streaming
    has_active_stream := status.has_active_stream
    can_stop := status.has_active_stream }

/-- Metadata bag attached to a stored chat message (the source stores a
dict such as `{"model": ..., "regenerated": True}`). -/
structure MsgMeta where
  modelName : Option String
  regenerated : Bool
deriving Repr, DecidableEq

/-- One stored message of a conversation (the `ChatMessage` model;
timestamps omitted). -/
structure Message where
  role : String
  content : String
  metadata : Option MsgMeta
deriving Repr, DecidableEq

/-- A stored conversation dict.  `title` and `updatedAt` are optional
because conversations created implicitly by `send_chat_message` carry
neither key (`fork` and `list` read them with fallbacks). -/
structure Conversation where
  id : String
  title : Option String
  createdAt : Nat
  updatedAt : Option Nat
  model : String
  projectId : Option String
  systemPrompt : Option String
  messages : List Message
  forkedFrom : Option String
deriving Repr, DecidableEq

/-- Python `l[:k]` for an `int` index: for `k ≥ 0` the first `k` elements,
for `k < 0` all but the last `|k|`. -/
def pySliceTo {α : Type} (l : List α) (k : Int) : List α :=
  if 0 ≤ k then l.take k.toNat else l.take ((l.length : Int) + k).toNat

/-- Truthiness of the optional `from_message_index` query parameter:
`None` and `0` are both falsy in `if from_message_index`. -/
def truthyIdx : Option Int → Bool
  | none => false
  | some k => k ≠ 0

/-- The forked-conversation dict that `fork_conversation` builds around its
chosen message list `msgs`. -/
def forkedConv (original : Conversation) (conversation_id new_id : String)
    (msgs : List Message) (now : Nat) : Conversation :=
  { id := new_id
    title := some ((original.title.getD "Conversation") ++ " (Fork)")
    createdAt := now
    updatedAt := some now
    model := original.model
    projectId := original.projectId
    systemPrompt := original.systemPrompt
    messages := msgs
    forkedFrom := some conversation_id }

/-- Endpoint `POST /chat/conversations/{id}/fork` (`fork_conversation`): 404 on a
missing id; copy the message list up to the cut index when that index is
truthy, the whole list otherwise; stamp the title with a fork marker and a
`forked_from` reference; store under the fresh id. -/
def fork_conversation (convs : PyDict Conversation) (conversation_id : String)
    (from_message_index : Option Int) (new_id : String) (now : Nat) :
    Except HttpErr (PyDict Conversation × Conversation) :=
  match dictGet convs conversation_id with
  | none => .error ⟨404, "Conversation not found"⟩
  | some original =>
    let forked := forkedConv original conversation_id new_id
      (if truthyIdx from_message_index then
        pySliceTo original.messages (from_message_index.getD 0)
      else original.messages) now
    .ok (dictSet convs new_id forked, forked)

/-- The backward scan of `regenerate_last_response`: index of the last
message with role `"user"`, if any. -/
def findLastUserIdx : List Message → Option Nat
  | [] => none
  | m :: t =>
    match findLastUserIdx t with
    | some j => some (j + 1)
    | none => if m.role = "user" then some 0 else none

/-- The default sampling temperature of a fresh send
(`ChatRequest.temperature: float = 0.7`). -/
def chatRequestDefaultTemperature : ℚ := 7 / 10

/-- The fixed sampling temperature `regenerate_last_response` passes to the
adapter (`temperature=0.8,  # Slightly higher for variation`). -/
def regenerateTemperature : ℚ := 8 / 10

/-- The signature of `ollama_service.stream_chat` as `regenerate` consumes
it: (model, message, system_prompt, context, temperature) ↦ chunks.  The
adapter is a parameter so theorems can observe the arguments passed. -/
abbrev ChatAdapter := String → String → Option String → List (String × String) → ℚ → List String

/-- The assistant message `regenerate_last_response` appends after
regenerating from the user message at index `i`: content accumulated from
the adapter stream invoked at temperature 0.8 with the messages before `i`
as context, and metadata carrying the model plus the `regenerated` mark. -/
def regenMessage (conv : Conversation) (adapter : ChatAdapter) (i : Nat) : Message :=
  { role := "assistant"
    content := String.join (adapter conv.model
      (((conv.messages.get? i).map Message.content).getD "")
      conv.systemPrompt
      ((conv.messages.take i).map (fun m => (m.role, m.content)))
      regenerateTemperature)
    metadata := some { modelName := some conv.model, regenerated := true } }

/-- Endpoint `POST /chat/regenerate/{conversation_id}` (`regenerate_last_response`):
503 without the service, 404 on a missing conversation, 400 when no user
message exists (before any mutation); otherwise truncate to the last user
message, re-invoke the adapter at temperature 0.8 with the prior messages
as context, and append one assistant message tagged as regenerated. -/
def regenerate_last_response (convs : PyDict Conversation) (conversation_id : String)
    (adapter : ChatAdapter) (ollamaOk : Bool) (now : Nat) :
    Except HttpErr (PyDict Conversation × Message) :=
  if ¬ ollamaOk then .error ⟨503, "Ollama service not available"⟩
  else
    match dictGet convs conversation_id with
    | none => .error ⟨404, "Conversation not found"⟩
    | some conv =>
      let messages := conv.messages
      match findLastUserIdx messages with
      | none => .error ⟨400, "No user message found to regenerate from"⟩
      | some i =>
        let assistant_message := regenMessage conv adapter i
        let conv' : Conversation :=
          { conv with
            messages := messages.take (i + 1) ++ [assistant_message]
            updatedAt := some now }
        .ok (dictSet convs conversation_id conv', assistant_message)

/-- Sort key of `list_conversations`:
`x.get("updated_at", x["created_at"])`. -/
def sortKey (c : Conversation) : Nat :=
  c.updatedAt.getD c.createdAt

/-- Most-recently-updated-first ordering (`sorted(..., reverse=True)` on
`sortKey`; Python's sort is stable, as is `List.insertionSort` under this
relation). -/
def recentFirst (a b : Conversation) : Prop :=
  sortKey b ≤ sortKey a

instance : DecidableRel recentFirst :=
  fun a b => inferInstanceAs (Decidable (sortKey b ≤ sortKey a))

/-- Body returned by `GET /chat/conversations`. -/
structure ListResp where
  conversations : List Conversation
  total : Nat
  limit : Nat
  offset : Nat
deriving Repr, DecidableEq

/-- The filter of `list_conversations`:
`if not project_id or conv.get("project_id") == project_id` (an absent or
empty filter keeps everything). -/
def projFilter (project_id : Option String) (c : Conversation) : Bool :=
  !truthy project_id || c.projectId == project_id

/-- Endpoint `GET /chat/conversations` (`list_conversations`): filter by project,
sort most-recently-updated first, report the full filtered count as
`total`, and slice `[offset : offset + limit]`. -/
def list_conversations (convs : PyDict Conversation) (project_id : Option String)
    (limit offset : Nat) : ListResp :=
  let filtered := (convs.map Prod.snd).filter (projFilter project_id)
  let sorted_conversations := List.insertionSort recentFirst filtered
  let total := sorted_conversations.length
  let paginated := (sorted_conversations.drop offset).take limit
  { conversations := paginated, total := total, limit := limit, offset := offset }

instance : IsTotal Conversation recentFirst :=
  ⟨fun a b => Nat.le_total (sortKey b) (sortKey a)⟩

instance : IsTrans Conversation recentFirst :=
  ⟨fun _ _ _ hab hbc => le_trans hbc hab⟩

/-- Healthy transport handles for concrete scenarios. -/
def wsA : WS := ⟨1, false⟩

def wsB : WS := ⟨2, false⟩

def wsC : WS := ⟨3, false⟩

/-- A transport whose `send_json` raises. -/
def wsFaulty : WS := ⟨9, true⟩

/-- Fresh metadata of a connection that is not generating. -/
def metaIdle : ConnMeta := ⟨none, none, false⟩

/-- Metadata of a connection with a generation in flight. -/
def metaBusy : ConnMeta := ⟨none, some "m1", true⟩

/-- One idle registered connection `c1`. -/
def stOne : MgrState := ⟨[("c1", wsA)], [("c1", metaIdle)], [], 0⟩

/-- One registered connection `c1` with a generation in flight (task 0). -/
def stBusy : MgrState := ⟨[("c1", wsA)], [("c1", metaBusy)], [("c1", ⟨0, false⟩)], 1⟩

/-- Three registered connections; `c1` (first in insertion order) has a
faulty transport. -/
def stThree : MgrState :=
  ⟨[("c1", wsFaulty), ("c2", wsB), ("c3", wsC)],
   [("c1", metaIdle), ("c2", metaIdle), ("c3", metaIdle)], [], 0⟩

/-- A registry in which the id `"a"` is already taken. -/
def stTakenA : MgrState := ⟨[("a", wsA)], [("a", metaIdle)], [], 0⟩

/-- A chat message carrying content and an explicit model. -/
def msgHello : ChatMsg := ⟨some "Hello", some "m1", none, none⟩

/-- Stored user / assistant messages for conversation scenarios. -/
def userMsg (s : String) : Message := ⟨"user", s, none⟩

def assistantMsg (s : String) : Message := ⟨"assistant", s, none⟩

/-- A conversation `[user A, assistant B]` (the spec's regenerate example). -/
def convAB : Conversation :=
  ⟨"conv1", some "Test", 1, some 2, "m1", none, none,
   [userMsg "A", assistantMsg "B"], none⟩

/-- A conversation whose messages are all from the assistant. -/
def convNoUser : Conversation :=
  ⟨"conv2", some "Empty", 1, some 2, "m1", none, none, [assistantMsg "B"], none⟩

/-- A store holding `convAB` and `convNoUser`. -/
def convStore : PyDict Conversation := [("conv1", convAB), ("conv2", convNoUser)]

/-- An adapter that ignores its arguments and yields two fragments. -/
def constAdapter : ChatAdapter := fun _ _ _ _ _ => ["re", "gen"]

/-- Conversation number `n` of the five-conversation pagination scenario,
updated at time `n`. -/
def convN (n : Nat) : Conversation :=
  ⟨"cv" ++ toString n, some ("t" ++ toString n), n, some n, "m1", none, none, [], none⟩

/-- Five stored conversations (the spec's pagination example). -/
def convsFive : PyDict Conversation :=
  [("cv1", convN 1), ("cv2", convN 2), ("cv3", convN 3),
   ("cv4", convN 4), ("cv5", convN 5)]

/-- Discriminator for the `{"type": "error"}` event shape. -/
def isErrorEv : Event → Bool
  | .errorEv _ => true
  | _ => false

theorem dictGet_dictSet_self {α : Type} (d : PyDict α) (k : String) (v : α) :
    dictGet (dictSet d k v) k = some v := by
  induction d with
  | nil => simp [dictGet, dictSet]
  | cons p t ih =>
    by_cases h : p.1 = k
    · simp [dictGet, dictSet, h]
    · simpa [dictGet, dictSet, h] using ih

theorem dictGet_dictErase_self {α : Type} (d : PyDict α) (k : String) :
    dictGet (dictErase d k) k = none := by
  induction d with
  | nil => simp [dictGet, dictErase]
  | cons p t ih =>
    by_cases h : p.1 = k
    · simpa [dictErase, h] using ih
    · simpa [dictGet, dictErase, h] using ih

theorem dictSet_dictSet {α : Type} (d : PyDict α) (k : String) (v w : α) :
    dictSet (dictSet d k v) k w = dictSet d k w := by
  induction d with
  | nil => simp [dictSet]
  | cons p t ih =>
    by_cases h : p.1 = k
    · simp [dictSet, h]
    · simp [dictSet, h, ih]

theorem send_message_ok (st : MgrState) (cid : String) (ev : Event) (ws : WS)
    (hws : dictGet st.active_connections cid = some ws) (hok : ws.faulty = false) :
    send_message st cid ev = (st, [(cid, ev)]) := by
  simp [send_message, hws, hok]

theorem sendChunks_ok (cid model : String) (ws : WS) (hok : ws.faulty = false)
    (chunks : List String) :
    ∀ st : MgrState, dictGet st.active_connections cid = some ws →
      sendChunks st cid model chunks =
        (st, chunks.map (fun c => (cid, Event.chatChunk c model))) := by
  induction chunks with
  | nil => intro st _; simp [sendChunks]
  | cons c t ih =>
    intro st hws
    simp only [sendChunks, send_message_ok st cid _ ws hws hok]
    simp [ih st hws]

theorem stream_chat_response_ok (st : MgrState) (cid model : String)
    (o : StreamOutcome) (ws : WS)
    (hws : dictGet st.active_connections cid = some ws) (hok : ws.faulty = false) :
    stream_chat_response st cid model o =
      (st,
       (cid, Event.chatStatusTyping) ::
         (match o with
          | .completed chunks =>
            chunks.map (fun c => (cid, Event.chatChunk c model)) ++
              [(cid, Event.chatComplete chunks.length)]
          | .raisedExc chunks m =>
            chunks.map (fun c => (cid, Event.chatChunk c model)) ++
              [(cid, Event.errorEv ("Chat error: " ++ m))]
          | .cancelledAt chunks =>
            chunks.map (fun c => (cid, Event.chatChunk c model))),
       match o with
       | .cancelledAt _ => TaskRes.cancelledRes
       | _ => TaskRes.normal) := by
  cases o with
  | completed chunks =>
    simp [stream_chat_response, send_message_ok st cid _ ws hws hok,
      sendChunks_ok cid model ws hok chunks st hws]
  | raisedExc chunks m =>
    simp [stream_chat_response, send_error, send_message_ok st cid _ ws hws hok,
      sendChunks_ok cid model ws hok chunks st hws]
  | cancelledAt chunks =>
    simp [stream_chat_response, send_message_ok st cid _ ws hws hok,
      sendChunks_ok cid model ws hok chunks st hws]

theorem handle_chat_accepted_run (st : MgrState) (cid : String) (msg : ChatMsg)
    (o : StreamOutcome) (meta : ConnMeta) (ws : WS)
    (hmeta : dictGet st.connection_metadata cid = some meta)
    (hidle : meta.isStreaming = false)
    (hmodel : truthy (pyOr msg.model meta.activeModel) = true)
    (hws : dictGet st.active_connections cid = some ws)
    (hok : ws.faulty = false) :
    handle_chat_message st cid msg true o =
      ({ active_connections := st.active_connections
         connection_metadata :=
           dictSet st.connection_metadata cid { meta with isStreaming := false }
         active_streams :=
           dictErase (dictSet st.active_streams cid ⟨st.nextTaskId, false⟩) cid
         nextTaskId := st.nextTaskId + 1 },
       (cid, Event.chatStatusTyping) ::
         (match o with
          | .completed chunks =>
            chunks.map
              (fun c => (cid, Event.chatChunk c ((pyOr msg.model meta.activeModel).getD ""))) ++
              [(cid, Event.chatComplete chunks.length)]
          | .raisedExc chunks m =>
            chunks.map
              (fun c => (cid, Event.chatChunk c ((pyOr msg.model meta.activeModel).getD ""))) ++
              [(cid, Event.errorEv ("Chat error: " ++ m))]
          | .cancelledAt chunks =>
            chunks.map
              (fun c => (cid, Event.chatChunk c ((pyOr msg.model meta.activeModel).getD ""))) ++
              [(cid, Event.chatCancelled)])) := by
  have hst2ws :
      dictGet
        (metaSetStreaming
          { st with
            active_streams := dictSet st.active_streams cid ⟨st.nextTaskId, false⟩
            nextTaskId := st.nextTaskId + 1 } cid true).active_connections cid = some ws := by
    simp [metaSetStreaming, hmeta, hws]
  simp only [handle_chat_message, hmeta, hidle, hmodel, Bool.not_true, Bool.false_eq_true,
    if_false, ite_false, Bool.not_false, Bool.true_eq_false]
  rw [stream_chat_response_ok _ cid _ o ws hst2ws hok]
  cases o with
  | completed chunks =>
    simp [metaSetStreaming, hmeta, dictGet_dictSet_self, dictSet_dictSet]
  | raisedExc chunks m =>
    simp [metaSetStreaming, hmeta, dictGet_dictSet_self, dictSet_dictSet]
  | cancelledAt chunks =>
    have hcancel :
        send_message
          { active_connections := st.active_connections
            connection_metadata :=
              dictSet st.connection_metadata cid { meta with isStreaming := true }
            active_streams := dictSet st.active_streams cid ⟨st.nextTaskId, false⟩
            nextTaskId := st.nextTaskId + 1 } cid Event.chatCancelled =
          ({ active_connections := st.active_connections
             connection_metadata :=
               dictSet st.connection_metadata cid { meta with isStreaming := true }
             active_streams := dictSet st.active_streams cid ⟨st.nextTaskId, false⟩
             nextTaskId := st.nextTaskId + 1 }, [(cid, Event.chatCancelled)]) :=
      send_message_ok _ cid _ ws (by simpa using hws) hok
    simp [metaSetStreaming, hmeta, dictGet_dictSet_self, dictSet_dictSet, hcancel]

/-- C1: for every accepted chat generation, whatever terminal outcome the
stream task reaches (normal completion, non-cancellation error, or
cancellation), the handler's cleanup removes the connection's task handle
from `active_streams` and resets `is_streaming` to `false`, so
`get_client_stream_status` then reports both flags `false` and a subsequent
chat message on the connection is accepted (its handler run begins with the
typing indicator rather than a busy rejection). -/
theorem chat_stream_cleanup (st : MgrState) (cid : String) (msg : ChatMsg)
    (o o' : StreamOutcome) (meta : ConnMeta) (ws : WS)
    (hmeta : dictGet st.connection_metadata cid = some meta)
    (hidle : meta.isStreaming = false)
    (hmodel : truthy (pyOr msg.model meta.activeModel) = true)
    (hws : dictGet st.active_connections cid = some ws)
    (hok : ws.faulty = false) :
    dictGet (handle_chat_message st cid msg true o).1.active_streams cid = none ∧
    dictGet (handle_chat_message st cid msg true o).1.connection_metadata cid =
      some { meta with isStreaming := false } ∧
    get_client_stream_status (handle_chat_message st cid msg true o).1 cid =
      ⟨false, false⟩ ∧
    (handle_chat_message (handle_chat_message st cid msg true o).1 cid msg true o').2.head? =
      some (cid, Event.chatStatusTyping) := by
  rw [handle_chat_accepted_run st cid msg o meta ws hmeta hidle hmodel hws hok]
  refine ⟨dictGet_dictErase_self _ cid, dictGet_dictSet_self _ cid _, ?_, ?_⟩
  · simp [get_client_stream_status, dictContains, dictGet_dictErase_self,
      dictGet_dictSet_self]
  · rw [handle_chat_accepted_run _ cid msg o' { meta with isStreaming := false } ws
      (dictGet_dictSet_self _ cid _) rfl (by simpa using hmodel) (by simpa using hws) hok]
    rfl

/-- Witness for C1 at a concrete idle connection, with a two-chunk normal
completion followed by a cancelled second generation. -/
theorem chat_stream_cleanup_witness :
    dictGet (handle_chat_message stOne "c1" msgHello true
      (StreamOutcome.completed ["hi", "there"])).1.active_streams "c1" = none ∧
    dictGet (handle_chat_message stOne "c1" msgHello true
      (StreamOutcome.completed ["hi", "there"])).1.connection_metadata "c1" =
      some { metaIdle with isStreaming := false } ∧
    get_client_stream_status (handle_chat_message stOne "c1" msgHello true
      (StreamOutcome.completed ["hi", "there"])).1 "c1" = ⟨false, false⟩ ∧
    (handle_chat_message (handle_chat_message stOne "c1" msgHello true
      (StreamOutcome.completed ["hi", "there"])).1 "c1" msgHello true
      (StreamOutcome.cancelledAt [])).2.head? = some ("c1", Event.chatStatusTyping) :=
  chat_stream_cleanup stOne "c1" msgHello (StreamOutcome.completed ["hi", "there"])
    (StreamOutcome.cancelledAt []) metaIdle wsA (by decide) (by decide) (by decide)
    (by decide) (by decide)

/-- C2: when a connection's `is_streaming` flag is set, routing another chat
message sends exactly the busy error event and changes nothing: no new task
is started and the task map — including the existing task handle and its
cancellation flag — and the metadata are left untouched. -/
theorem chat_busy_rejection (st : MgrState) (cid : String) (msg : ChatMsg)
    (ollamaOk : Bool) (o : StreamOutcome) (meta : ConnMeta) (ws : WS)
    (hmeta : dictGet st.connection_metadata cid = some meta)
    (hbusy : meta.isStreaming = true)
    (hws : dictGet st.active_connections cid = some ws)
    (hok : ws.faulty = false) :
    handle_chat_message st cid msg ollamaOk o = (st, [(cid, Event.errorEv busyMsg)]) ∧
    (handle_chat_message st cid msg ollamaOk o).1.active_streams = st.active_streams ∧
    dictGet (handle_chat_message st cid msg ollamaOk o).1.active_streams cid =
      dictGet st.active_streams cid ∧
    (handle_chat_message st cid msg ollamaOk o).1.connection_metadata =
      st.connection_metadata := by
  have h : handle_chat_message st cid msg ollamaOk o =
      (st, [(cid, Event.errorEv busyMsg)]) := by
    simp [handle_chat_message, hmeta, hbusy, send_error,
      send_message_ok st cid _ ws hws hok]
  exact ⟨h, by rw [h], by rw [h], by rw [h]⟩

/-- Witness for C2 at a concrete connection with task 0 in flight. -/
theorem chat_busy_rejection_witness :
    handle_chat_message stBusy "c1" msgHello true (StreamOutcome.completed ["x"]) =
      (stBusy, [("c1", Event.errorEv busyMsg)]) ∧
    (handle_chat_message stBusy "c1" msgHello true
      (StreamOutcome.completed ["x"])).1.active_streams = stBusy.active_streams ∧
    dictGet (handle_chat_message stBusy "c1" msgHello true
      (StreamOutcome.completed ["x"])).1.active_streams "c1" =
      dictGet stBusy.active_streams "c1" ∧
    (handle_chat_message stBusy "c1" msgHello true
      (StreamOutcome.completed ["x"])).1.connection_metadata =
      stBusy.connection_metadata :=
  chat_busy_rejection stBusy "c1" msgHello true (StreamOutcome.completed ["x"])
    metaBusy wsA (by decide) (by decide) (by decide) (by decide)

/-- C3 counterexample: on the HTTP surface, stopping when nothing is active
is NOT a no-op success — `POST /chat/stop` raises a 400 error for the idle
registered connection `c1`, contradicting the claim for the HTTP surface. -/
theorem stop_idle_http_400 :
    http_stop_generation stOne "c1" =
      .error ⟨400, "No active generation to stop"⟩ := by
  rfl

/-- C3 (amended): with no active generation, the transport-surface stop
handler is a total no-op acknowledged with a `generation_stopped`
"No active generation to stop" message; the HTTP stop-by-client-id
endpoint instead rejects the same situation with a 400 error. -/
theorem stop_idle_two_surfaces (st : MgrState) (cid : String) (ws : WS)
    (hstream : dictGet st.active_streams cid = none)
    (hws : dictGet st.active_connections cid = some ws)
    (hok : ws.faulty = false) :
    handle_stop_generation st cid =
      (st, [(cid, Event.generationStopped "No active generation to stop")]) ∧
    http_stop_generation st cid = .error ⟨400, "No active generation to stop"⟩ := by
  constructor
  · simp [handle_stop_generation, hstream, send_message_ok st cid _ ws hws hok]
  · simp [http_stop_generation, get_client_stream_status, dictContains, hstream]

/-- Witness for the amended C3 at the concrete idle connection `c1`. -/
theorem stop_idle_two_surfaces_witness :
    handle_stop_generation stOne "c1" =
      (stOne, [("c1", Event.generationStopped "No active generation to stop")]) ∧
    http_stop_generation stOne "c1" = .error ⟨400, "No active generation to stop"⟩ :=
  stop_idle_two_surfaces stOne "c1" wsA rfl rfl rfl

/-- C4 counterexample: with no Ollama endpoint available, the client
receives the failure only as an in-band text fragment streamed like a
normal chunk, terminated by the ordinary `complete` event — no `error`
event is emitted, so the failure is not distinguishable from a normal
end-of-stream by event type, contradicting the claim. -/
theorem upstream_error_not_error_event :
    (handle_chat_message stOne "c1" msgHello true
      (ollamaOutcome Upstream.noEndpoint)).2 =
      [("c1", Event.chatStatusTyping),
       ("c1", Event.chatChunk "Error: No Ollama endpoint available" "m1"),
       ("c1", Event.chatComplete 1)] ∧
    ((handle_chat_message stOne "c1" msgHello true
      (ollamaOutcome Upstream.noEndpoint)).2.filter (fun e => isErrorEv e.2)) = [] := by
  constructor <;> rfl

/-- C4 (amended): every upstream adapter failure (no endpoint, no client,
non-200 status, timeout, transport exception) is caught inside the adapter
and surfaced as an in-band human-readable `"Error: ..."` text fragment,
which the controller forwards as an ordinary streaming chunk event followed
by the normal terminal `complete` event — never as a distinct `error`
event; malformed stream chunks are skipped silently; nothing propagates out
of the controller, whose cleanup still runs (the status flags read `false`
afterwards). -/
theorem upstream_failure_inband (st : MgrState) (cid : String) (msg : ChatMsg)
    (meta : ConnMeta) (ws : WS) (u : Upstream)
    (hmeta : dictGet st.connection_metadata cid = some meta)
    (hidle : meta.isStreaming = false)
    (hmodel : truthy (pyOr msg.model meta.activeModel) = true)
    (hws : dictGet st.active_connections cid = some ws)
    (hok : ws.faulty = false) :
    (handle_chat_message st cid msg true (ollamaOutcome u)).2 =
      (cid, Event.chatStatusTyping) ::
        (ollama_stream_chat u).map
          (fun c => (cid, Event.chatChunk c ((pyOr msg.model meta.activeModel).getD ""))) ++
        [(cid, Event.chatComplete (ollama_stream_chat u).length)] ∧
    ((handle_chat_message st cid msg true (ollamaOutcome u)).2.filter
      (fun e => isErrorEv e.2)) = [] ∧
    get_client_stream_status (handle_chat_message st cid msg true (ollamaOutcome u)).1 cid =
      ⟨false, false⟩ ∧
    ollama_stream_chat Upstream.noEndpoint = ["Error: No Ollama endpoint available"] ∧
    ollama_stream_chat Upstream.noClient = ["Error: Ollama client not initialized"] ∧
    ollama_stream_chat Upstream.timeoutExc = ["Error: Request timed out"] ∧
    (∀ s lines, s ≠ 200 → ollama_stream_chat (Upstream.httpResp s lines) =
      ["Error: Ollama returned status " ++ toString s]) ∧
    (∀ m, ollama_stream_chat (Upstream.raisedBefore m) = ["Error: " ++ m]) ∧
    (∀ lines, processLines (RawLine.malformed :: lines) = processLines lines) := by
  rw [show ollamaOutcome u = StreamOutcome.completed (ollama_stream_chat u) from rfl,
    handle_chat_accepted_run st cid msg _ meta ws hmeta hidle hmodel hws hok]
  refine ⟨rfl, ?_, ?_, rfl, rfl, rfl, fun s lines hs => by simp [ollama_stream_chat, hs],
    fun m => rfl, fun lines => rfl⟩
  · simp [isErrorEv, List.filter_append, List.filter_map]
  · simp [get_client_stream_status, dictContains, dictGet_dictErase_self,
      dictGet_dictSet_self]

/-- Witness for the amended C4: a timeout on the concrete idle connection. -/
theorem upstream_failure_inband_witness :
    (handle_chat_message stOne "c1" msgHello true
      (ollamaOutcome Upstream.timeoutExc)).2 =
      ("c1", Event.chatStatusTyping) ::
        (ollama_stream_chat Upstream.timeoutExc).map
          (fun c => ("c1", Event.chatChunk c ((pyOr msgHello.model metaIdle.activeModel).getD ""))) ++
        [("c1", Event.chatComplete (ollama_stream_chat Upstream.timeoutExc).length)] ∧
    ((handle_chat_message stOne "c1" msgHello true
      (ollamaOutcome Upstream.timeoutExc)).2.filter (fun e => isErrorEv e.2)) = [] ∧
    get_client_stream_status (handle_chat_message stOne "c1" msgHello true
      (ollamaOutcome Upstream.timeoutExc)).1 "c1" = ⟨false, false⟩ ∧
    ollama_stream_chat Upstream.noEndpoint = ["Error: No Ollama endpoint available"] ∧
    ollama_stream_chat Upstream.noClient = ["Error: Ollama client not initialized"] ∧
    ollama_stream_chat Upstream.timeoutExc = ["Error: Request timed out"] ∧
    (∀ s lines, s ≠ 200 → ollama_stream_chat (Upstream.httpResp s lines) =
      ["Error: Ollama returned status " ++ toString s]) ∧
    (∀ m, ollama_stream_chat (Upstream.raisedBefore m) = ["Error: " ++ m]) ∧
    (∀ lines, processLines (RawLine.malformed :: lines) = processLines lines) :=
  upstream_failure_inband stOne "c1" msgHello metaIdle wsA Upstream.timeoutExc
    (by decide) (by decide) (by decide) (by decide) (by decide)

/-- C5 (code bug witnessed): broadcasting to three registered connections
whose first-inserted member `c1` has a raising transport delivers the
payload to NOBODY — the failed send disconnects `c1` while
`active_connections` is being iterated, so the dict iterator raises
`RuntimeError` before `c2` and `c3` are visited.  The faulty connection is
removed, but isolation fails: the other two connections never receive the
payload, contradicting the claim (and §8 testable property 7 of the spec,
whose intent the per-send `try/except` in `broadcast` shows). -/
theorem broadcast_faulty_loses_rest :
    broadcast stThree (Event.errorEv "payload") [] =
      ⟨⟨[("c2", wsB), ("c3", wsC)], [("c2", metaIdle), ("c3", metaIdle)], [], 0⟩,
       [], true⟩ := by
  rfl

theorem findLastUserIdx_none_iff (l : List Message) :
    findLastUserIdx l = none ↔ ∀ m ∈ l, m.role ≠ "user" := by
  induction l with
  | nil => simp [findLastUserIdx]
  | cons m t ih =>
    rw [findLastUserIdx]
    cases ht : findLastUserIdx t with
    | some j =>
      simp only [List.mem_cons]
      constructor
      · intro h; cases h
      · intro h
        have hall : ∀ x ∈ t, x.role ≠ "user" := fun x hx => h x (Or.inr hx)
        rw [ih.mpr hall] at ht
        cases ht
    | none =>
      have hall := ih.mp ht
      by_cases hr : m.role = "user"
      · simp [hr, List.forall_mem_cons]
      · simp only [hr, if_false, List.forall_mem_cons]
        simp only [ne_eq] at hall ⊢
        simp only [eq_self_iff_true, true_iff, hr, not_false_iff, true_and]
        exact hall

theorem findLastUserIdx_role (l : List Message) :
    ∀ i, findLastUserIdx l = some i → (l.get? i).map Message.role = some "user" := by
  induction l with
  | nil => intro i h; cases h
  | cons m t ih =>
    intro i h
    rw [findLastUserIdx] at h
    cases ht : findLastUserIdx t with
    | some j =>
      rw [ht] at h
      injection h with h'
      subst h'
      simpa using ih j ht
    | none =>
      rw [ht] at h
      by_cases hr : m.role = "user"
      · rw [if_pos hr] at h
        injection h with h'
        subst h'
        simp [hr]
      · rw [if_neg hr] at h
        cases h

theorem findLastUserIdx_last (l : List Message) :
    ∀ i, findLastUserIdx l = some i →
      ∀ j, i < j → (l.get? j).map Message.role ≠ some "user" := by
  induction l with
  | nil => intro i h; cases h
  | cons m t ih =>
    intro i h j hij
    rw [findLastUserIdx] at h
    cases ht : findLastUserIdx t with
    | some j' =>
      rw [ht] at h
      injection h with h'
      subst h'
      cases j with
      | zero => omega
      | succ k =>
        simp only [List.get?_cons_succ]
        exact ih j' ht k (by omega)
    | none =>
      rw [ht] at h
      by_cases hr : m.role = "user"
      · rw [if_pos hr] at h
        injection h with h'
        subst h'
        cases j with
        | zero => omega
        | succ k =>
          simp only [List.get?_cons_succ]
          have hall := (findLastUserIdx_none_iff t).mp ht
          intro hcontra
          cases hx : t.get? k with
          | none => rw [hx] at hcontra; cases hcontra
          | some x =>
            rw [hx] at hcontra
            have hxr : x.role = "user" := by simpa using hcontra
            exact hall x (List.get?_mem hx) hxr
      · rw [if_neg hr] at h
        cases h

/-- C6 counterexample: forking the two-message conversation `conv1` with
`from_message_index = 0` copies BOTH messages instead of the first zero —
`0` is falsy in `if from_message_index`, so the cut index is ignored,
contradicting the claim's "for every k with 0 <= k <= N". -/
theorem fork_index_zero_copies_all :
    (fork_conversation convStore "conv1" (some 0) "f1" 7).map (fun r => r.2.messages) =
      .ok [userMsg "A", assistantMsg "B"] ∧
    ¬ (fork_conversation convStore "conv1" (some 0) "f1" 7).map (fun r => r.2.messages) =
      .ok ([] : List Message) := by
  refine ⟨rfl, fun h => ?_⟩
  rw [show (fork_conversation convStore "conv1" (some 0) "f1" 7).map
        (fun r => r.2.messages) = .ok [userMsg "A", assistantMsg "B"] from rfl] at h
  injection h with h'
  exact List.cons_ne_nil _ _ h'

/-- C6 (amended): forking a conversation with `N` messages and a cut index
`k` with `1 <= k <= N` produces a new conversation holding exactly the
first `k` messages, a title stamped with the `" (Fork)"` marker, and a
`forked_from` reference equal to the source id; forking with no index — or
with `k = 0`, which the falsy-zero check treats like no index — copies all
`N` messages. -/
theorem fork_semantics (convs : PyDict Conversation) (cid newId : String)
    (orig : Conversation) (now : Nat) (k : Nat)
    (horig : dictGet convs cid = some orig)
    (hk1 : 1 ≤ k) (hkN : k ≤ orig.messages.length) :
    fork_conversation convs cid (some (k : Int)) newId now =
      .ok (dictSet convs newId
            (forkedConv orig cid newId (orig.messages.take k) now),
           forkedConv orig cid newId (orig.messages.take k) now) ∧
    (orig.messages.take k).length = k ∧
    (forkedConv orig cid newId (orig.messages.take k) now).title =
      some ((orig.title.getD "Conversation") ++ " (Fork)") ∧
    (forkedConv orig cid newId (orig.messages.take k) now).forkedFrom = some cid ∧
    fork_conversation convs cid none newId now =
      .ok (dictSet convs newId (forkedConv orig cid newId orig.messages now),
           forkedConv orig cid newId orig.messages now) ∧
    fork_conversation convs cid (some 0) newId now =
      .ok (dictSet convs newId (forkedConv orig cid newId orig.messages now),
           forkedConv orig cid newId orig.messages now) := by
  have hkz : (k : Int) ≠ 0 := by
    have hp : k ≠ 0 := by omega
    exact_mod_cast hp
  have htr : truthyIdx (some (k : Int)) = true := by
    simp [truthyIdx, hkz]
  refine ⟨?_, ?_, rfl, rfl, ?_, ?_⟩
  · simp only [fork_conversation, horig, htr, Option.getD_some, if_true]
    simp [pySliceTo, Int.natCast_nonneg, Int.toNat_natCast]
  · simp [List.length_take, Nat.min_eq_left hkN]
  · simp [fork_conversation, horig, truthyIdx]
  · simp [fork_conversation, horig, truthyIdx]

/-- Witness for the amended C6: fork `conv1` (two messages) at `k = 1`,
with no index, and at `k = 0`. -/
theorem fork_semantics_witness :
    fork_conversation convStore "conv1" (some (1 : Int)) "f2" 9 =
      .ok (dictSet convStore "f2"
            (forkedConv convAB "conv1" "f2" (convAB.messages.take 1) 9),
           forkedConv convAB "conv1" "f2" (convAB.messages.take 1) 9) ∧
    (convAB.messages.take 1).length = 1 ∧
    (forkedConv convAB "conv1" "f2" (convAB.messages.take 1) 9).title =
      some ((convAB.title.getD "Conversation") ++ " (Fork)") ∧
    (forkedConv convAB "conv1" "f2" (convAB.messages.take 1) 9).forkedFrom =
      some "conv1" ∧
    fork_conversation convStore "conv1" none "f2" 9 =
      .ok (dictSet convStore "f2" (forkedConv convAB "conv1" "f2" convAB.messages 9),
           forkedConv convAB "conv1" "f2" convAB.messages 9) ∧
    fork_conversation convStore "conv1" (some 0) "f2" 9 =
      .ok (dictSet convStore "f2" (forkedConv convAB "conv1" "f2" convAB.messages 9),
           forkedConv convAB "conv1" "f2" convAB.messages 9) :=
  fork_semantics convStore "conv1" "f2" convAB 9 1 rfl (by decide) (by decide)

/-- C7: regenerate scans backward for the most recent user message — when
none exists it fails with the 400 "no user message" error and, the store
being returned only on success, leaves the conversation unchanged; when the
last user message sits at index `i` (it is a user message and everything
after it is not), the conversation is truncated to end at that message and
exactly one assistant message is appended, built by `regenMessage`: content
generated by the adapter invoked at temperature 0.8 — strictly higher than
the fresh-send default 0.7 — and metadata marked `regenerated`. -/
theorem regenerate_semantics (convs : PyDict Conversation) (cid : String)
    (conv : Conversation) (adapter : ChatAdapter) (now : Nat)
    (hconv : dictGet convs cid = some conv) :
    (findLastUserIdx conv.messages = none →
      regenerate_last_response convs cid adapter true now =
        .error ⟨400, "No user message found to regenerate from"⟩) ∧
    (findLastUserIdx conv.messages = none ↔ ∀ m ∈ conv.messages, m.role ≠ "user") ∧
    (∀ i, findLastUserIdx conv.messages = some i →
      ((conv.messages.get? i).map Message.role = some "user") ∧
      (∀ j, i < j → (conv.messages.get? j).map Message.role ≠ some "user") ∧
      regenerate_last_response convs cid adapter true now =
        .ok (dictSet convs cid
              { conv with
                messages := conv.messages.take (i + 1) ++ [regenMessage conv adapter i]
                updatedAt := some now },
             regenMessage conv adapter i)) ∧
    (regenMessage conv adapter 0).role = "assistant" ∧
    (regenMessage conv adapter 0).metadata =
      some { modelName := some conv.model, regenerated := true } ∧
    regenerateTemperature > chatRequestDefaultTemperature := by
  refine ⟨?_, findLastUserIdx_none_iff _, ?_, rfl, rfl, ?_⟩
  · intro hnone
    simp [regenerate_last_response, hconv, hnone]
  · intro i hi
    exact ⟨findLastUserIdx_role _ i hi, findLastUserIdx_last _ i hi,
      by simp [regenerate_last_response, hconv, hi]⟩
  · norm_num [regenerateTemperature, chatRequestDefaultTemperature]

/-- Witness for C7: on `conv2` (assistant-only messages) regenerate fails
with the 400 error; on `conv1` (`[user A, assistant B]`) the last user
index is 0, the message there is a user message, and regenerate truncates
to `[user A]` and appends the regenerated assistant message; 0.8 > 0.7. -/
theorem regenerate_semantics_witness :
    regenerate_last_response convStore "conv2" constAdapter true 11 =
      .error ⟨400, "No user message found to regenerate from"⟩ ∧
    ((convAB.messages.get? 0).map Message.role = some "user") ∧
    regenerate_last_response convStore "conv1" constAdapter true 11 =
      .ok (dictSet convStore "conv1"
            { convAB with
              messages := convAB.messages.take 1 ++ [regenMessage convAB constAdapter 0]
              updatedAt := some 11 },
           regenMessage convAB constAdapter 0) ∧
    regenerateTemperature > chatRequestDefaultTemperature :=
  ⟨(regenerate_semantics convStore "conv2" convNoUser constAdapter 11 rfl).1 rfl,
   ((regenerate_semantics convStore "conv1" convAB constAdapter 11 rfl).2.2.1 0 rfl).1,
   ((regenerate_semantics convStore "conv1" convAB constAdapter 11 rfl).2.2.1 0 rfl).2.2,
   (regenerate_semantics convStore "conv1" convAB constAdapter 11 rfl).2.2.2.2.2⟩

/-- C8 counterexample: the registry already holds the id `"a"`, yet a
connect request suggesting `"a"` is assigned `"a"` anyway — no collision
check exists, and the prior registration is overwritten by the new
transport instead of a fresh unique id being generated. -/
theorem connect_collision_overwrites :
    (connect stTakenA wsB (some "a") "fresh-b").2.1 = "a" ∧
    dictGet stTakenA.active_connections "a" = some wsA ∧
    dictGet (connect stTakenA wsB (some "a") "fresh-b").1.active_connections "a" =
      some wsB := by
  refine ⟨rfl, rfl, rfl⟩

/-- C8 (amended): connect uses the suggested id whenever it is truthy
(non-empty) — even when it collides with an existing registration, which it
overwrites — and generates a fresh id only when no usable id is suggested;
in either case the new connection's metadata starts with the in-flight flag
false, the transport is registered under the assigned id, and (on a working
transport) the welcome payload is sent before the id is returned. -/
theorem connect_assigns (st : MgrState) (ws : WS) (sug : Option String)
    (fresh : String) :
    (truthy sug = true → (connect st ws sug fresh).2.1 = sug.getD "") ∧
    (truthy sug = false → (connect st ws sug fresh).2.1 = fresh) ∧
    dictGet (connect st ws sug fresh).1.connection_metadata
      (connect st ws sug fresh).2.1 = some ⟨none, none, false⟩ ∧
    dictGet (connect st ws sug fresh).1.active_connections
      (connect st ws sug fresh).2.1 = some ws ∧
    (ws.faulty = false →
      (connect st ws sug fresh).2.2 =
        [((connect st ws sug fresh).2.1,
          Event.welcomeEv (connect st ws sug fresh).2.1)]) := by
  refine ⟨?_, ?_, ?_, ?_, ?_⟩
  · intro h; simp [connect, h]
  · intro h; simp [connect, h]
  · simp [connect, dictGet_dictSet_self]
  · simp only [connect]
    exact dictGet_dictSet_self _ _ _
  · intro hf; simp [connect, hf]

/-- Witness for the amended C8: a fresh suggested id `"z"` on a working
transport, and a connect with no suggestion receiving the generated id. -/
theorem connect_assigns_witness :
    (connect stOne wsB (some "z") "f0").2.1 = (some "z").getD "" ∧
    (connect stOne wsB none "f0").2.1 = "f0" ∧
    dictGet (connect stOne wsB (some "z") "f0").1.connection_metadata
      (connect stOne wsB (some "z") "f0").2.1 = some ⟨none, none, false⟩ ∧
    dictGet (connect stOne wsB (some "z") "f0").1.active_connections
      (connect stOne wsB (some "z") "f0").2.1 = some wsB ∧
    (connect stOne wsB (some "z") "f0").2.2 =
      [((connect stOne wsB (some "z") "f0").2.1,
        Event.welcomeEv (connect stOne wsB (some "z") "f0").2.1)] :=
  ⟨(connect_assigns stOne wsB (some "z") "f0").1 (by decide),
   (connect_assigns stOne wsB none "f0").2.1 (by decide),
   (connect_assigns stOne wsB (some "z") "f0").2.2.1,
   (connect_assigns stOne wsB (some "z") "f0").2.2.2.1,
   (connect_assigns stOne wsB (some "z") "f0").2.2.2.2 (by decide)⟩

/-- C9: listing conversations filters by project, sorts the filtered
conversations most-recently-updated first (a permutation of the filtered
set, pairwise descending on the updated-or-created timestamp), returns the
`[offset, offset + limit)` window of that sorted order — whose length is
`min limit (total - offset)`, so exactly `limit` items whenever the window
fits — while the reported `total` is always the full filtered count,
whatever `limit` and `offset` are. -/
theorem list_conversations_pagination (convs : PyDict Conversation)
    (project_id : Option String) (limit offset : Nat) :
    (list_conversations convs project_id limit offset).total =
      ((convs.map Prod.snd).filter (projFilter project_id)).length ∧
    (list_conversations convs project_id limit offset).conversations =
      ((List.insertionSort recentFirst
        ((convs.map Prod.snd).filter (projFilter project_id))).drop offset).take limit ∧
    List.Sorted recentFirst
      (List.insertionSort recentFirst
        ((convs.map Prod.snd).filter (projFilter project_id))) ∧
    (List.insertionSort recentFirst
      ((convs.map Prod.snd).filter (projFilter project_id))).Perm
      ((convs.map Prod.snd).filter (projFilter project_id)) ∧
    (list_conversations convs project_id limit offset).conversations.length =
      min limit ((list_conversations convs project_id limit offset).total - offset) := by
  refine ⟨?_, rfl, List.sorted_insertionSort recentFirst _,
    List.perm_insertionSort recentFirst _, ?_⟩
  · simp [list_conversations, List.length_insertionSort]
  · simp [list_conversations, List.length_take, List.length_drop,
      List.length_insertionSort]

/-- C10: a client id absent from both the metadata map and the task map —
never connected or already disconnected — gets `is_streaming = false` and
`has_active_stream = false` from the manager's status query, and the HTTP
status endpoint answers it successfully with those fields (and
`can_stop = false`) rather than raising. -/
theorem unknown_client_status (st : MgrState) (cid : String)
    (h1 : dictGet st.connection_metadata cid = none)
    (h2 : dictGet st.active_streams cid = none) :
    get_client_stream_status st cid = ⟨false, false⟩ ∧
    http_get_chat_status st cid = ⟨cid, false, false, false⟩ := by
  constructor
  · simp [get_client_stream_status, dictContains, h1, h2]
  · simp [http_get_chat_status, get_client_stream_status, dictContains, h1, h2]

/-- Witness for C10 at the never-connected id `"ghost"`. -/
theorem unknown_client_status_witness :
    get_client_stream_status stOne "ghost" = ⟨false, false⟩ ∧
    http_get_chat_status stOne "ghost" = ⟨"ghost", false, false, false⟩ :=
  unknown_client_status stOne "ghost" rfl rfl
